import Mathlib

/-!
Shallow embedding of the request-handling layer of the `suelections` voting
backend (Go, package `server`, file `models.go`), together with proofs about
its validation, handlers and middleware.

Modelling conventions:
* A Mongo `primitive.ObjectID` is modelled as the list of hex-digit values
  obtained by parsing its 24-character hex representation.
* A branch's Mongo collection is modelled as a `List Candidate` (documents in
  cursor order); `InsertOne` appends, `UpdateOne` rewrites the first match.
* Store failures, which in Go surface as non-nil `error` values from the
  driver, are modelled as explicit `Bool` parameters of the handler
  functions; the outcome of decoding the request body is the explicit
  `DecodeOutcome`, which on error carries whatever fields the decoder
  populated before failing (`encoding/json` documents that a
  type-mismatch error skips the offending field and fills the rest).
* A Go nil slice in a stored document is observationally an empty list
  (same `len`, same `range`, same indexing), so stored `answers` are a
  plain `List String`; the nil / empty-list distinction that matters for
  validation is kept in `CandidateRequest.answers : Option (List String)`.
* `len` on a Go string counts UTF-8 bytes, hence `String.utf8ByteSize`.
* The `randomize` shuffle (seeded from the clock) is modelled by an
  arbitrary function parameter constrained, where a claim needs it, to be a
  permutation - which is exactly what `rand.Shuffle`'s swaps guarantee.
-/

/-- `const AnswerMaxLength = 280` from `models.go`. -/
def AnswerMaxLength : Nat := 280

/-- `const questionCount = 4` from `models.go`. -/
def questionCount : Nat := 4

/-- A parsed `primitive.ObjectID`: the 24 hex-digit values of its hex form. -/
abbrev ObjectId := List Nat

/-- The `Candidate` document (`_id`, `name`, `votes`, `answers`). -/
structure Candidate where
  id : ObjectId
  name : String
  votes : Int
  answers : List String
deriving DecidableEq

/-- The `LeaderboardEntry` view entity (`_id`, `name`, `votes`). -/
structure LeaderboardEntry where
  id : ObjectId
  name : String
  votes : Int
deriving DecidableEq

/-- The `Answer` view entity (`_id`, `name`, `votes`, `answer`). -/
structure Answer where
  id : ObjectId
  name : String
  votes : Int
  answer : String
deriving DecidableEq

/-- The JSend-style envelope: `Response` with status `success` or `fail`
(payload `data`), or `ErrorResponse` with status `error` (a `message`).
Fail payloads are the `map[string]string` field-to-message maps. -/
inductive Envelope (α : Type) where
  | success (data : α)
  | fail (data : List (String × String))
  | error (message : String)
deriving DecidableEq

/-- The incoming candidate JSON body. `answers = none` models a Go nil
slice (field absent), distinct from `some []` (empty list provided). -/
structure CandidateRequest where
  name : String
  answers : Option (List String)
deriving DecidableEq

/-- `var ErrMissingName = errors.New("missing name")`. -/
def ErrMissingName : String := "missing name"

/-- `var ErrMissingAnswers = errors.New("missing answers")`. -/
def ErrMissingAnswers : String := "missing answers"

/-- `var ErrAnswersTooLong = errors.New("one or more answers are too long")`. -/
def ErrAnswersTooLong : String := "one or more answers are too long"

/-- The possible non-nil results of `render.Bind`: the three validation
errors returned by `CandidateRequest.Bind`, or any other error (e.g. the
JSON decoder's error on a malformed body). -/
inductive BindError where
  | missingName
  | missingAnswers
  | answersTooLong
  | decodeError
deriving DecidableEq

/-- `(request *CandidateRequest) Bind` from `models.go`: empty name, then
nil answers, then any answer of byte length above `AnswerMaxLength`. -/
def CandidateRequest.Bind (request : CandidateRequest) : Option BindError :=
  if request.name = "" then some .missingName
  else
    match request.answers with
    | none => some .missingAnswers
    | some answers =>
        if answers.any (fun answer => AnswerMaxLength < answer.utf8ByteSize) then
          some .answersTooLong
        else none

/-- The zero value of `CandidateRequest`: what the struct holds when the
JSON decoder fails before filling any field. -/
def zeroCandidateRequest : CandidateRequest := { name := "", answers := none }

/-- Outcome of decoding the request body into a `CandidateRequest`:
`ok` when `encoding/json` returns nil, `err` when it returns an error.
In both cases the struct holds whatever fields the decoder populated:
on a syntax error it stops before filling anything (leaving
`zeroCandidateRequest`), while on a type-mismatch error it documents
skipping the offending field and filling the rest, so `err` can carry a
partially populated request. -/
inductive DecodeOutcome where
  | ok (request : CandidateRequest)
  | err (populated : CandidateRequest)
deriving DecidableEq

/-- `render.Bind`: decode the body into a `CandidateRequest`; on a decode
error return it (the struct keeps the fields the decoder populated),
otherwise run the request's `Bind`. -/
def renderBind (decoded : DecodeOutcome) :
    CandidateRequest × Option BindError :=
  match decoded with
  | .err populated => (populated, some .decodeError)
  | .ok request => (request, request.Bind)

/-- Outcome of a handler: the rendered envelope, the HTTP status code
(`render.Status` sets 201 on the create path, otherwise chi/render's
default 200), and the branch collection after the request. -/
structure HandlerResult (α : Type) where
  response : Envelope α
  status : Nat
  coll : List Candidate
deriving DecidableEq

/-- `(rs *AppResource) PostCandidates` from `models.go`. `newId` is the
`_id` Mongo assigns to the inserted document; `insertOk` is whether
`InsertOne` succeeds. Note the Go code only checks the bind error against
the three validation errors: any other bind error falls through to the
insert of whatever the decoder left in the request struct. -/
def PostCandidates (decoded : DecodeOutcome) (coll : List Candidate)
    (newId : ObjectId) (insertOk : Bool) : HandlerResult Unit :=
  let bound := renderBind decoded
  match bound.2 with
  | some .missingName => ⟨.fail [("name", ErrMissingName)], 200, coll⟩
  | some .missingAnswers => ⟨.fail [("answers", ErrMissingAnswers)], 200, coll⟩
  | some .answersTooLong => ⟨.fail [("answers", ErrAnswersTooLong)], 200, coll⟩
  | _ =>
      if insertOk then
        ⟨.success (), 201,
          coll ++ [{ id := newId, name := bound.1.name, votes := 0,
                     answers := bound.1.answers.getD [] }]⟩
      else
        ⟨.error "There was an error adding the candidate to the database.", 200, coll⟩

/-- `BranchCtx` middleware from `models.go`: on a branch other than
"senate" / "treasury" it renders a fail envelope and returns without
calling `next`; otherwise it stores the branch in the request context and
calls `next` (modelled as `next` receiving the context's branch value).
`Sum.inl` is the short-circuit, `Sum.inr` the downstream handler's result. -/
def BranchCtx {α : Type} (next : String → α) (branch : String) :
    Sum (Envelope Unit) α :=
  if branch ≠ "senate" ∧ branch ≠ "treasury" then
    .inl (.fail [("message",
      "Invalid branch \"" ++ branch ++ "\"; must be either \"senate\" or \"treasury\"")])
  else
    .inr (next branch)

/-- One hex digit's value, both cases accepted, as in Go's `encoding/hex`. -/
def hexDigitValue (c : Char) : Option Nat :=
  if '0' ≤ c ∧ c ≤ '9' then some (c.toNat - '0'.toNat)
  else if 'a' ≤ c ∧ c ≤ 'f' then some (c.toNat - 'a'.toNat + 10)
  else if 'A' ≤ c ∧ c ≤ 'F' then some (c.toNat - 'A'.toNat + 10)
  else none

/-- `primitive.ObjectIDFromHex`: succeeds exactly on 24-character strings
of hex digits. -/
def ObjectIDFromHex (s : String) : Option ObjectId :=
  if s.length = 24 then s.toList.mapM hexDigitValue else none

/-- Mongo's `UpdateOne` with filter `{_id: id}` and update
`{$inc: {votes: 1}}`: rewrite the first document whose `_id` matches,
adding 1 to its `votes`; matching zero documents is not an error. -/
def UpdateOneIncVotes (id : ObjectId) : List Candidate → List Candidate
  | [] => []
  | c :: rest =>
      if c.id = id then { c with votes := c.votes + 1 } :: rest
      else c :: UpdateOneIncVotes id rest

/-- `(rs *AppResource) PatchVotes` from `models.go`. `updateOk` is whether
the driver's `UpdateOne` call succeeds. -/
def PatchVotes (idParam : String) (coll : List Candidate) (updateOk : Bool) :
    HandlerResult Unit :=
  match ObjectIDFromHex idParam with
  | none => ⟨.error "Could not get ObjectID", 200, coll⟩
  | some id =>
      if updateOk then ⟨.success (), 200, UpdateOneIncVotes id coll⟩
      else ⟨.error "Could not increment votes", 200, coll⟩

/-- The `Answer` view entity built from a candidate for question `i`:
`{Id, Name, Votes, Answer: candidate.Answers[i]}`. `none` models the
out-of-range panic of the Go slice indexing, which has no bounds check. -/
def candidateAnswer (c : Candidate) (i : Nat) : Option Answer :=
  (c.answers.get? i).map
    (fun a => { id := c.id, name := c.name, votes := c.votes, answer := a })

/-- The bucket for question `i` before shuffling: one `Answer` per
candidate, in cursor order (the Go loop appends to `answers[i]` once per
decoded candidate). -/
def answerBuckets (cands : List Candidate) : Option (List (List Answer)) :=
  (List.range questionCount).mapM (fun i => cands.mapM (fun c => candidateAnswer c i))

/-- The `for i := 0; i < questionCount; i++ { randomize(answers[i]) }`
loop: apply the (externally random) shuffle to each bucket in turn.
`shuffle i` stands for the randomize call on bucket `i`. -/
def shuffleBuckets (shuffle : Nat → List Answer → List Answer) :
    Nat → List (List Answer) → List (List Answer)
  | _, [] => []
  | i, b :: rest => shuffle i b :: shuffleBuckets shuffle (i + 1) rest

/-- `(rs *AppResource) GetAnswers` from `models.go`, restricted to its
data path (cursor obtained, every document decodes): build the
`questionCount` buckets, shuffle each, and render them under key
"answers". `none` is the out-of-range panic on a candidate with fewer
than `questionCount` answers. -/
def GetAnswers (cands : List Candidate)
    (shuffle : Nat → List Answer → List Answer) :
    Option (Envelope (String × List (List Answer))) :=
  (answerBuckets cands).map
    (fun buckets => .success ("answers", shuffleBuckets shuffle 0 buckets))

/-- Projection performed by decoding a candidate document into a
`LeaderboardEntry` (the `answers` field is simply not decoded). -/
def toLeaderboardEntry (c : Candidate) : LeaderboardEntry :=
  { id := c.id, name := c.name, votes := c.votes }

/-- The votes-descending order the handler requests from the store via
`options.Find().SetSort(bson.D{{"votes", -1}})`. -/
def leaderboardOrder (a b : Candidate) : Prop := b.votes ≤ a.votes

instance : DecidableRel leaderboardOrder := fun a b =>
  inferInstanceAs (Decidable (b.votes ≤ a.votes))

instance : IsTotal Candidate leaderboardOrder :=
  ⟨fun a b => Int.le_total b.votes a.votes⟩

instance : IsTrans Candidate leaderboardOrder :=
  ⟨fun _ _ _ hab hbc => le_trans hbc hab⟩

/-- The cursor Mongo returns for `Find` with the votes-descending sort
option: the collection's documents sorted by `votes` descending (the
store's tie-break is unspecified; any sorting algorithm realises the
contract, a stable one is used here). -/
def findSortVotesDesc (coll : List Candidate) : List Candidate :=
  coll.insertionSort leaderboardOrder

/-- `(rs *AppResource) GetLeaderboard` from `models.go`. `findOk` is
whether `Find` returns a cursor, `decodeOk` whether every document decodes
into a `LeaderboardEntry`. -/
def GetLeaderboard (coll : List Candidate) (findOk decodeOk : Bool) :
    Envelope (String × List LeaderboardEntry) :=
  if findOk = false then .error "Could not get cursor from db"
  else if decodeOk = false then .error "Could not decode into leaderboard entry"
  else .success ("leaderboard", (findSortVotesDesc coll).map toLeaderboardEntry)

/-- The `Answer` entry `GetAnswers` builds for candidate `c` and question
`i` when the index is in bounds. -/
def answerAt (c : Candidate) (i : Nat) : Answer :=
  { id := c.id, name := c.name, votes := c.votes, answer := c.answers.getD i "" }

/-- The id parsed from the 24-hex-character string
`"0123456789abcdef01234567"`, used as concrete test data. -/
def sampleId : ObjectId :=
  [0, 1, 2, 3, 4, 5, 6, 7, 8, 9, 10, 11, 12, 13, 14, 15, 0, 1, 2, 3, 4, 5, 6, 7]

/-- Concrete candidate with exactly `questionCount` answers, for witnesses. -/
def candA : Candidate :=
  { id := [0], name := "A", votes := 0, answers := ["a1", "a2", "a3", "a4"] }

/-- Second concrete candidate with exactly `questionCount` answers. -/
def candB : Candidate :=
  { id := [1], name := "B", votes := 3, answers := ["b1", "b2", "b3", "b4"] }

/-- Concrete candidate with fewer than `questionCount` answers. -/
def candShort : Candidate :=
  { id := [2], name := "C", votes := 0, answers := ["only", "two"] }

/-- A single answer string of 281 bytes, one over `AnswerMaxLength`. -/
def longAnswer : String := String.mk (List.replicate 281 'a')

/-! ### Helper lemmas -/

theorem postCandidates_of_bind_none (req : CandidateRequest) (coll : List Candidate)
    (newId : ObjectId) (hbind : req.Bind = none) :
    PostCandidates (.ok req) coll newId true
      = ⟨.success (), 201,
          coll ++ [{ id := newId, name := req.name, votes := 0,
                     answers := req.answers.getD [] }]⟩
    ∧ PostCandidates (.ok req) coll newId false
      = ⟨.error "There was an error adding the candidate to the database.", 200, coll⟩ := by
  constructor <;> simp [PostCandidates, renderBind, hbind]

theorem updateOneIncVotes_no_match (id : ObjectId) (l : List Candidate)
    (h : ∀ c ∈ l, c.id ≠ id) : UpdateOneIncVotes id l = l := by
  induction l with
  | nil => rfl
  | cons c rest ih =>
      simp only [UpdateOneIncVotes, if_neg (h c (List.mem_cons_self c rest))]
      exact congrArg (c :: ·) (ih fun x hx => h x (List.mem_cons_of_mem c hx))

theorem map_incVotes_no_match (id : ObjectId) (l : List Candidate)
    (h : ∀ c ∈ l, c.id ≠ id) :
    l.map (fun c => if c.id = id then { c with votes := c.votes + 1 } else c) = l := by
  induction l with
  | nil => rfl
  | cons c rest ih =>
      simp only [List.map_cons, if_neg (h c (List.mem_cons_self c rest))]
      exact congrArg (c :: ·) (ih fun x hx => h x (List.mem_cons_of_mem c hx))

theorem updateOneIncVotes_eq_map (id : ObjectId) (l : List Candidate)
    (huniq : l.countP (fun c => decide (c.id = id)) ≤ 1) :
    UpdateOneIncVotes id l
      = l.map (fun c => if c.id = id then { c with votes := c.votes + 1 } else c) := by
  induction l with
  | nil => rfl
  | cons c rest ih =>
      rw [List.countP_cons] at huniq
      by_cases h : c.id = id
      · have h1 : rest.countP (fun c => decide (c.id = id)) = 0 := by
          rw [decide_eq_true h, if_pos rfl] at huniq
          omega
        have hnone : ∀ x ∈ rest, x.id ≠ id := by
          intro x hx hxid
          have hpos : 0 < rest.countP (fun c => decide (c.id = id)) :=
            List.countP_pos_iff.mpr ⟨x, hx, by simp [hxid]⟩
          omega
        simp only [UpdateOneIncVotes, if_pos h, List.map_cons]
        exact congrArg _ (map_incVotes_no_match id rest hnone).symm
      · simp only [UpdateOneIncVotes, if_neg h, List.map_cons]
        refine congrArg (c :: ·) (ih ?_)
        simpa [h] using huniq

theorem mapM_option_eq_map {α β : Type} (f : α → Option β) (g : α → β) (l : List α)
    (h : ∀ x ∈ l, f x = some (g x)) : l.mapM f = some (l.map g) := by
  induction l with
  | nil => rfl
  | cons a rest ih =>
      rw [List.mapM_cons, h a (List.mem_cons_self a rest),
          ih fun x hx => h x (List.mem_cons_of_mem a hx)]
      rfl

theorem mapM_option_eq_none {α β : Type} (f : α → Option β) (l : List α)
    (x : α) (hx : x ∈ l) (hfx : f x = none) : l.mapM f = none := by
  induction l with
  | nil => cases hx
  | cons a rest ih =>
      rw [List.mapM_cons]
      rcases List.mem_cons.mp hx with h | h
      · rw [h] at hfx
        rw [hfx]
        rfl
      · cases hfa : f a with
        | none => rfl
        | some b => rw [ih h]; rfl

theorem candidateAnswer_eq_some (c : Candidate) (i : Nat) (h : i < c.answers.length) :
    candidateAnswer c i = some (answerAt c i) := by
  unfold candidateAnswer answerAt
  rw [List.getD_eq_get?, List.get?_eq_get h]
  rfl

theorem answerBuckets_eq (cands : List Candidate)
    (hlen : ∀ c ∈ cands, questionCount ≤ c.answers.length) :
    answerBuckets cands
      = some ((List.range questionCount).map fun i => cands.map fun c => answerAt c i) := by
  unfold answerBuckets
  apply mapM_option_eq_map
  intro i hi
  apply mapM_option_eq_map
  intro c hc
  exact candidateAnswer_eq_some c i (lt_of_lt_of_le (List.mem_range.mp hi) (hlen c hc))

/-! ### C1 -/

/-- C1 counterexample: the submission `{name: "A", answers: ["x", "y"]}`
has 2 answers, not `questionCount` = 4, yet it passes validation and is
persisted with a success envelope and status 201 - `Bind` never compares
the answers count against `questionCount`, so the claimed rejection does
not happen. -/
theorem c1_counterexample_short_answers_accepted :
    PostCandidates (.ok { name := "A", answers := some ["x", "y"] }) [] [0] true
      = ⟨.success (), 201, [{ id := [0], name := "A", votes := 0, answers := ["x", "y"] }]⟩
    ∧ (["x", "y"] : List String).length ≠ questionCount := by
  decide

/-- C1 (amended): validation never inspects the answers count. Every
submission with a non-empty name and a present answers list whose entries
are each within `AnswerMaxLength` bytes passes `Bind` and is persisted with
the submitted answers unchanged - of whatever length, 4 or not. -/
theorem c1_amended_any_answer_count_persisted (name : String) (l : List String)
    (coll : List Candidate) (newId : ObjectId)
    (hname : name ≠ "")
    (hsize : ∀ a ∈ l, a.utf8ByteSize ≤ AnswerMaxLength) :
    CandidateRequest.Bind { name := name, answers := some l } = none ∧
    PostCandidates (.ok { name := name, answers := some l }) coll newId true
      = ⟨.success (), 201,
          coll ++ [{ id := newId, name := name, votes := 0, answers := l }]⟩ := by
  have hany : (l.any fun answer => decide (AnswerMaxLength < answer.utf8ByteSize)) = false := by
    rw [List.any_eq_false]
    intro a ha
    simp only [decide_eq_true_eq]
    exact Nat.not_lt.mpr (hsize a ha)
  have hbind : CandidateRequest.Bind { name := name, answers := some l } = none := by
    simp [CandidateRequest.Bind, hname, hany]
  exact ⟨hbind, (postCandidates_of_bind_none _ coll newId hbind).1⟩

/-- Witness for C1 (amended): a 2-answer submission at concrete input. -/
theorem c1_amended_any_answer_count_persisted_witness :
    CandidateRequest.Bind { name := "A", answers := some ["x", "y"] } = none ∧
    PostCandidates (.ok { name := "A", answers := some ["x", "y"] }) [] [0] true
      = ⟨.success (), 201, [{ id := [0], name := "A", votes := 0, answers := ["x", "y"] }]⟩ :=
  c1_amended_any_answer_count_persisted "A" ["x", "y"] [] [0] (by decide) (by decide)

/-! ### C2 -/

/-- C2: `Bind` fails fast in the order (1) empty name - `missing name`
under field key "name"; (2) nil answers - `missing answers` under key
"answers"; (3) some answer over 280 bytes - `one or more answers are too
long` under key "answers"; each failure renders a fail envelope and leaves
the collection untouched, and a present-but-empty answers list is not
`MissingAnswers`. -/
theorem c2_bind_failfast_order (req : CandidateRequest) (coll : List Candidate)
    (newId : ObjectId) (insertOk : Bool) :
    (req.name = "" →
      req.Bind = some .missingName ∧
      PostCandidates (.ok req) coll newId insertOk
        = ⟨.fail [("name", ErrMissingName)], 200, coll⟩) ∧
    (req.name ≠ "" → req.answers = none →
      req.Bind = some .missingAnswers ∧
      PostCandidates (.ok req) coll newId insertOk
        = ⟨.fail [("answers", ErrMissingAnswers)], 200, coll⟩) ∧
    (∀ l, req.name ≠ "" → req.answers = some l →
      l.any (fun a => AnswerMaxLength < a.utf8ByteSize) = true →
      req.Bind = some .answersTooLong ∧
      PostCandidates (.ok req) coll newId insertOk
        = ⟨.fail [("answers", ErrAnswersTooLong)], 200, coll⟩) ∧
    (req.name ≠ "" → req.answers = some [] → req.Bind = none) := by
  refine ⟨fun h1 => ?_, fun h1 h2 => ?_, fun l h1 h2 h3 => ?_, fun h1 h2 => ?_⟩
  · have hb : req.Bind = some .missingName := by
      simp [CandidateRequest.Bind, h1]
    exact ⟨hb, by simp [PostCandidates, renderBind, hb]⟩
  · have hb : req.Bind = some .missingAnswers := by
      simp [CandidateRequest.Bind, h1, h2]
    exact ⟨hb, by simp [PostCandidates, renderBind, hb]⟩
  · have hb : req.Bind = some .answersTooLong := by
      simp [CandidateRequest.Bind, h1, h2, h3]
    exact ⟨hb, by simp [PostCandidates, renderBind, hb]⟩
  · simp [CandidateRequest.Bind, h1, h2]

set_option maxRecDepth 4000 in
/-- Witness for C2: the three failures and the empty-list distinction at
concrete inputs ("" name; nil answers; one 281-byte answer; empty list). -/
theorem c2_bind_failfast_order_witness :
    (PostCandidates (.ok { name := "", answers := none }) [] [0] true
      = ⟨.fail [("name", ErrMissingName)], 200, []⟩) ∧
    (PostCandidates (.ok { name := "A", answers := none }) [] [0] true
      = ⟨.fail [("answers", ErrMissingAnswers)], 200, []⟩) ∧
    (PostCandidates (.ok { name := "A", answers := some [longAnswer] }) [] [0] true
      = ⟨.fail [("answers", ErrAnswersTooLong)], 200, []⟩) ∧
    CandidateRequest.Bind { name := "A", answers := some [] } = none :=
  ⟨((c2_bind_failfast_order { name := "", answers := none } [] [0] true).1 rfl).2,
   ((c2_bind_failfast_order { name := "A", answers := none } [] [0] true).2.1
      (by decide) rfl).2,
   ((c2_bind_failfast_order { name := "A", answers := some [longAnswer] } [] [0] true).2.2.1
      [longAnswer] (by decide) rfl (by decide)).2,
   (c2_bind_failfast_order { name := "A", answers := some [] } [] [0] true).2.2.2
      (by decide) rfl⟩

/-! ### C3 -/

/-- C3: for a branch other than "senate" / "treasury", `BranchCtx` renders
a fail envelope whose message names the invalid value, and its result does
not depend on the downstream handler (the handler is never invoked); for
the two allowed values it passes the branch, via the request context, to
the downstream handler and returns that handler's result. -/
theorem c3_branchCtx_gatekeeps {α : Type} (branch : String) (next : String → α) :
    (branch ≠ "senate" → branch ≠ "treasury" →
       BranchCtx next branch
         = .inl (.fail [("message",
             "Invalid branch \"" ++ branch ++ "\"; must be either \"senate\" or \"treasury\"")])
       ∧ ∀ next' : String → α, BranchCtx next branch = BranchCtx next' branch)
    ∧ (branch = "senate" ∨ branch = "treasury" →
       BranchCtx next branch = .inr (next branch)) := by
  constructor
  · intro h1 h2
    constructor
    · simp [BranchCtx, h1, h2]
    · intro next'
      simp [BranchCtx, h1, h2]
  · rintro (h | h) <;> subst h <;> simp [BranchCtx]

/-- Witness for C3: the invalid branch "judiciary" is rejected with a fail
envelope naming it, independently of the downstream handler; "senate" and
"treasury" reach the downstream handler. -/
theorem c3_branchCtx_gatekeeps_witness :
    (BranchCtx (fun _ => (0 : Nat)) "judiciary"
       = .inl (.fail [("message",
           "Invalid branch \"" ++ "judiciary" ++ "\"; must be either \"senate\" or \"treasury\"")])
     ∧ BranchCtx (fun _ => (0 : Nat)) "judiciary" = BranchCtx (fun _ => (7 : Nat)) "judiciary")
    ∧ BranchCtx (fun _ => (0 : Nat)) "senate" = .inr 0
    ∧ BranchCtx (fun _ => (0 : Nat)) "treasury" = .inr 0 :=
  ⟨⟨((c3_branchCtx_gatekeeps "judiciary" (fun _ => (0 : Nat))).1 (by decide) (by decide)).1,
    ((c3_branchCtx_gatekeeps "judiciary" (fun _ => (0 : Nat))).1 (by decide) (by decide)).2
      (fun _ => (7 : Nat))⟩,
   (c3_branchCtx_gatekeeps "senate" (fun _ => (0 : Nat))).2 (Or.inl rfl),
   (c3_branchCtx_gatekeeps "treasury" (fun _ => (0 : Nat))).2 (Or.inr rfl)⟩

/-! ### C4 -/

/-- C4: on a well-formed id (one `ObjectIDFromHex` parses), with ids
unique in the collection (at most one match, Mongo's `_id` invariant), a
successful `PatchVotes` renders a success envelope and rewrites the
collection so that the matching document gets `votes + 1` and keeps every
other field, while every non-matching document is unchanged; when no
document carries the id, the operation is a silent no-op that still
renders a success envelope. -/
theorem c4_patchVotes_increments_exactly_one (idParam : String) (id : ObjectId)
    (coll : List Candidate)
    (hparse : ObjectIDFromHex idParam = some id)
    (huniq : coll.countP (fun c => decide (c.id = id)) ≤ 1) :
    PatchVotes idParam coll true
      = ⟨.success (), 200,
          coll.map fun c => if c.id = id then { c with votes := c.votes + 1 } else c⟩
    ∧ ((∀ c ∈ coll, c.id ≠ id) → PatchVotes idParam coll true = ⟨.success (), 200, coll⟩) := by
  constructor
  · simp [PatchVotes, hparse, updateOneIncVotes_eq_map id coll huniq]
  · intro h
    simp [PatchVotes, hparse, updateOneIncVotes_no_match id coll h]

/-- Witness for C4: incrementing `sampleId` in a two-candidate collection
bumps only that candidate's votes (5 to 6) and renders success; against a
collection without the id, the collection is returned untouched with a
success envelope. -/
theorem c4_patchVotes_increments_exactly_one_witness :
    PatchVotes "0123456789abcdef01234567"
      [{ id := sampleId, name := "A", votes := 5, answers := [] },
       { id := [9], name := "B", votes := 2, answers := [] }] true
      = ⟨.success (), 200,
         [{ id := sampleId, name := "A", votes := 6, answers := [] },
          { id := [9], name := "B", votes := 2, answers := [] }]⟩
    ∧ PatchVotes "0123456789abcdef01234567"
        [{ id := [9], name := "B", votes := 2, answers := [] }] true
      = ⟨.success (), 200, [{ id := [9], name := "B", votes := 2, answers := [] }]⟩ := by
  constructor
  · have h := (c4_patchVotes_increments_exactly_one "0123456789abcdef01234567" sampleId
      [{ id := sampleId, name := "A", votes := 5, answers := [] },
       { id := [9], name := "B", votes := 2, answers := [] }]
      (by decide) (by decide)).1
    rw [h]
    decide
  · exact (c4_patchVotes_increments_exactly_one "0123456789abcdef01234567" sampleId
      [{ id := [9], name := "B", votes := 2, answers := [] }]
      (by decide) (by decide)).2 (by decide)

/-! ### C5 -/

/-- C5: an id path parameter that `ObjectIDFromHex` rejects makes
`PatchVotes` render the error envelope "Could not get ObjectID" (not a
fail envelope) and leave the collection untouched, whatever the store
would have answered. -/
theorem c5_patchVotes_malformed_id (idParam : String) (coll : List Candidate)
    (updateOk : Bool)
    (hparse : ObjectIDFromHex idParam = none) :
    PatchVotes idParam coll updateOk = ⟨.error "Could not get ObjectID", 200, coll⟩ := by
  simp [PatchVotes, hparse]

/-- Witness for C5: the non-id-shaped string "not-an-objectid". -/
theorem c5_patchVotes_malformed_id_witness :
    ObjectIDFromHex "not-an-objectid" = none ∧
    PatchVotes "not-an-objectid"
        [{ id := sampleId, name := "A", votes := 5, answers := [] }] true
      = ⟨.error "Could not get ObjectID", 200,
         [{ id := sampleId, name := "A", votes := 5, answers := [] }]⟩ :=
  ⟨by decide,
   c5_patchVotes_malformed_id "not-an-objectid"
     [{ id := sampleId, name := "A", votes := 5, answers := [] }] true (by decide)⟩

/-! ### C7 -/

/-- C7: a submission that passes validation is appended to the branch's
collection as exactly one new document carrying the submitted name and
answers and `votes = 0`, and the handler renders a success envelope with
empty payload and HTTP status 201; if `InsertOne` fails, it renders an
error envelope, the collection is unchanged and the status stays at the
default 200. -/
theorem c7_postCandidates_insert_success (req : CandidateRequest) (l : List String)
    (coll : List Candidate) (newId : ObjectId)
    (hbind : req.Bind = none) (hans : req.answers = some l) :
    PostCandidates (.ok req) coll newId true
      = ⟨.success (), 201,
          coll ++ [{ id := newId, name := req.name, votes := 0, answers := l }]⟩
    ∧ PostCandidates (.ok req) coll newId false
      = ⟨.error "There was an error adding the candidate to the database.", 200, coll⟩ := by
  have h := postCandidates_of_bind_none req coll newId hbind
  rw [hans] at h
  simpa using h

/-- Witness for C7: the spec's round-trip input, name "Alice" with answers
["a", "b", "c", "d"], inserted into an empty collection. -/
theorem c7_postCandidates_insert_success_witness :
    PostCandidates (.ok { name := "Alice", answers := some ["a", "b", "c", "d"] }) [] [1] true
      = ⟨.success (), 201,
         [{ id := [1], name := "Alice", votes := 0, answers := ["a", "b", "c", "d"] }]⟩
    ∧ PostCandidates (.ok { name := "Alice", answers := some ["a", "b", "c", "d"] }) [] [1] false
      = ⟨.error "There was an error adding the candidate to the database.", 200, []⟩ :=
  c7_postCandidates_insert_success { name := "Alice", answers := some ["a", "b", "c", "d"] }
    ["a", "b", "c", "d"] [] [1] (by decide) rfl

/-! ### C9 -/

/-- C9 counterexample: the body `{"name":"Bob","answers":"x"}` makes
`encoding/json` return a type-mismatch error - none of the three
validation errors - after populating `name` with "Bob" and skipping only
the offending `answers` field. The handler does fall through and insert
with success/201, but the inserted document carries the decoded name
"Bob", not the empty name of the zero-valued request the claim asserts. -/
theorem c9_counterexample_populated_name_inserted :
    PostCandidates (.err { name := "Bob", answers := none }) [] [0] true
      = ⟨.success (), 201, [{ id := [0], name := "Bob", votes := 0, answers := [] }]⟩
    ∧ "Bob" ≠ zeroCandidateRequest.name := by
  decide

/-- C9 (amended): when the body binding fails with an error that is none
of the three validation errors (the match falls into the default arm),
`PostCandidates` does not return early with a fail or error envelope: it
proceeds to insert a document built from whatever fields the decoder
populated in the request - the zero-valued request (empty name, nil
answers, observationally the empty list) only when the decoder filled
nothing, e.g. on a malformed body - with votes 0, and renders a success
envelope with status 201. -/
theorem c9_amended_bind_error_falls_through (populated : CandidateRequest)
    (coll : List Candidate) (newId : ObjectId) :
    PostCandidates (.err populated) coll newId true
      = ⟨.success (), 201,
          coll ++ [{ id := newId, name := populated.name, votes := 0,
                     answers := populated.answers.getD [] }]⟩ := by
  simp [PostCandidates, renderBind]

/-! ### C8 -/

/-- C8: `GetLeaderboard` renders, under key "leaderboard" in a success
envelope, exactly one `LeaderboardEntry` (id, name, votes) per document of
the collection, in descending order of votes (the order the handler
requests from the store via the votes-descending sort option; ties in an
unspecified order); a store failure or a decode failure yields an error
envelope. -/
theorem c8_getLeaderboard_sorted_projection (coll : List Candidate) (decodeOk : Bool) :
    (∃ entries, GetLeaderboard coll true true = .success ("leaderboard", entries)
       ∧ List.Perm entries (coll.map toLeaderboardEntry)
       ∧ List.Sorted (fun a b : LeaderboardEntry => b.votes ≤ a.votes) entries)
    ∧ GetLeaderboard coll false decodeOk = .error "Could not get cursor from db"
    ∧ GetLeaderboard coll true false = .error "Could not decode into leaderboard entry" := by
  refine ⟨⟨(findSortVotesDesc coll).map toLeaderboardEntry, rfl, ?_, ?_⟩, rfl, rfl⟩
  · exact (List.perm_insertionSort leaderboardOrder coll).map toLeaderboardEntry
  · exact List.Pairwise.map toLeaderboardEntry (fun a b hab => hab)
      (List.sorted_insertionSort leaderboardOrder coll)

/-! ### C6 -/

/-- C6: with every stored candidate carrying at least `questionCount`
answers and `randomize` only permuting each bucket (which is all a
swap-based shuffle can do), `GetAnswers` renders under key "answers"
exactly `questionCount` = 4 buckets, and bucket `i` is a permutation of
one `Answer` per candidate carrying that candidate's id, name, votes and
answer string at index `i`; consequently the multiset of
(candidate id, question index) pairs of bucket `i` equals the source
data's, whatever order each shuffle produced. -/
theorem c6_getAnswers_buckets_partition (cands : List Candidate)
    (shuffle : Nat → List Answer → List Answer)
    (hlen : ∀ c ∈ cands, questionCount ≤ c.answers.length)
    (hshuffle : ∀ i l, List.Perm (shuffle i l) l) :
    ∃ buckets,
      GetAnswers cands shuffle = some (.success ("answers", buckets))
      ∧ buckets.length = questionCount
      ∧ ∀ i, (hi : i < buckets.length) →
          List.Perm (buckets.get ⟨i, hi⟩) (cands.map fun c => answerAt c i)
          ∧ List.Perm ((buckets.get ⟨i, hi⟩).map fun a => (a.id, i))
              (cands.map fun c => (c.id, i)) := by
  have hb : answerBuckets cands
      = some [cands.map fun c => answerAt c 0, cands.map fun c => answerAt c 1,
              cands.map fun c => answerAt c 2, cands.map fun c => answerAt c 3] := by
    rw [answerBuckets_eq cands hlen]
    rfl
  refine ⟨[shuffle 0 (cands.map fun c => answerAt c 0),
           shuffle 1 (cands.map fun c => answerAt c 1),
           shuffle 2 (cands.map fun c => answerAt c 2),
           shuffle 3 (cands.map fun c => answerAt c 3)], ?_, rfl, ?_⟩
  · unfold GetAnswers
    rw [hb]
    rfl
  · intro i hi
    have hpair : ∀ j, List.Perm
        ((shuffle j (cands.map fun c => answerAt c j)).map fun a => (a.id, j))
        (cands.map fun c => (c.id, j)) := by
      intro j
      refine ((hshuffle j (cands.map fun c => answerAt c j)).map fun a => (a.id, j)).trans ?_
      rw [List.map_map]
      exact List.Perm.refl _
    match i, hi with
    | 0, _ => exact ⟨hshuffle 0 _, hpair 0⟩
    | 1, _ => exact ⟨hshuffle 1 _, hpair 1⟩
    | 2, _ => exact ⟨hshuffle 2 _, hpair 2⟩
    | 3, _ => exact ⟨hshuffle 3 _, hpair 3⟩

/-- Witness for C6: two candidates with four answers each, and the
identity permutation standing for the shuffle. -/
theorem c6_getAnswers_buckets_partition_witness :
    ∃ buckets,
      GetAnswers [candA, candB] (fun _ l => l) = some (.success ("answers", buckets))
      ∧ buckets.length = questionCount
      ∧ ∀ i, (hi : i < buckets.length) →
          List.Perm (buckets.get ⟨i, hi⟩) ([candA, candB].map fun c => answerAt c i)
          ∧ List.Perm ((buckets.get ⟨i, hi⟩).map fun a => (a.id, i))
              ([candA, candB].map fun c => (c.id, i)) :=
  c6_getAnswers_buckets_partition [candA, candB] (fun _ l => l) (by decide)
    (fun _ l => List.Perm.refl l)

/-! ### C10 -/

/-- C10: `GetAnswers` indexes each candidate's answers at indices
0 through `questionCount` - 1 with no bounds check. When every stored
candidate has at least `questionCount` answers, every access is in bounds
and the handler produces its buckets (the out-of-range outcome `none` is
not taken); a stored candidate with fewer than `questionCount` answers
drives the indexing out of bounds (`none`, the Go panic). -/
theorem c10_getAnswers_indexing_bounds (cands : List Candidate)
    (shuffle : Nat → List Answer → List Answer) :
    ((∀ c ∈ cands, questionCount ≤ c.answers.length) →
       ∃ buckets, GetAnswers cands shuffle = some (.success ("answers", buckets)))
    ∧ (∀ c ∈ cands, c.answers.length < questionCount →
       GetAnswers cands shuffle = none) := by
  constructor
  · intro hlen
    refine ⟨shuffleBuckets shuffle 0
      ((List.range questionCount).map fun i => cands.map fun c => answerAt c i), ?_⟩
    unfold GetAnswers
    rw [answerBuckets_eq cands hlen]
    rfl
  · intro c hc hshort
    have hca : candidateAnswer c c.answers.length = none := by
      unfold candidateAnswer
      rw [List.get?_eq_none.mpr (le_refl _)]
      rfl
    have hinner : cands.mapM (fun x => candidateAnswer x c.answers.length) = none :=
      mapM_option_eq_none _ cands c hc hca
    have houter : answerBuckets cands = none := by
      unfold answerBuckets
      exact mapM_option_eq_none _ _ c.answers.length
        (List.mem_range.mpr hshort) hinner
    unfold GetAnswers
    rw [houter]
    rfl

/-- Witness for C10: two well-formed candidates produce buckets; the
two-answer candidate `candShort` drives the indexing out of bounds. -/
theorem c10_getAnswers_indexing_bounds_witness :
    (∃ buckets, GetAnswers [candA, candB] (fun _ l => l)
       = some (.success ("answers", buckets)))
    ∧ GetAnswers [candShort] (fun _ l => l) = none :=
  ⟨(c10_getAnswers_indexing_bounds [candA, candB] (fun _ l => l)).1 (by decide),
   (c10_getAnswers_indexing_bounds [candShort] (fun _ l => l)).2 candShort
     (by decide) (by decide)⟩
